import Mathlib

/-!
Shallow embedding of the credit-ledger routes in `api/routes/credits.py`
(PanelX backend).  The JSON files `data/credits.json` and
`data/transactions.json` become the two fields of `LedgerState`; each
route handler becomes a pure function from a state (plus a clock
environment standing for `datetime.now()`) to a response paired with the
successor state.  `FREE_LAUNCH_MODE` is a module constant `True` in the
source; the handlers read it as a global, so here each handler that
consults it takes it as an explicit `free_mode : Bool` argument, with the
source's value recorded as `FREE_LAUNCH_MODE := true`.
-/

namespace Credits

/-- Value of the module constant `FREE_LAUNCH_MODE = True` in the source. -/
def FREE_LAUNCH_MODE : Bool := true

/-- `FREE_CREDITS_PER_USER = 1000`. -/
def FREE_CREDITS_PER_USER : Int := 1000

/-- One record of `data/credits.json`: the dict stored under a uid by
`init_user_credits` (fields `balance`, `total_purchased`, `total_used`,
`created_at`). -/
structure Account where
  balance : Int
  total_purchased : Int
  total_used : Int
  created_at : String
deriving Repr, DecidableEq

/-- One entry of a user's list in `data/transactions.json`, as built by
`add_transaction`. -/
structure Transaction where
  id : String
  tx_type : String
  amount : Int
  description : String
  balance_after : Int
  payment_id : Option String
  created_at : String
deriving Repr, DecidableEq

/-- A Python dict keyed by uid, as an association list (first binding of a
key wins, matching dict lookup on the states the routes build, which never
duplicate keys). -/
def lookupA {α : Type} : List (String × α) → String → Option α
  | [], _ => none
  | (k', v) :: rest, k => if k' = k then some v else lookupA rest k

/-- `d[k] = v` on a dict: replace the binding if the key is present,
append it otherwise. -/
def insertA {α : Type} : List (String × α) → String → α → List (String × α)
  | [], k, v => [(k, v)]
  | (k', v') :: rest, k, v =>
      if k' = k then (k, v) :: rest else (k', v') :: insertA rest k v

/-- The persistent state: contents of `data/credits.json` (uid → account)
and `data/transactions.json` (uid → transaction list). -/
structure LedgerState where
  credits : List (String × Account)
  transactions : List (String × List Transaction)
deriving Repr, DecidableEq

/-- Stands for `datetime.now()` at the moment a handler runs: `nowIso` is
`datetime.now().isoformat()`, `nowMs` is `int(datetime.now().timestamp() * 1000)`. -/
structure Env where
  nowIso : String
  nowMs : Nat
deriving Repr, DecidableEq

/-- Helper `get_balance(uid)`: `credits.get(uid, {}).get("balance", 0)`. -/
def get_balance (credits : List (String × Account)) (uid : String) : Int :=
  match lookupA credits uid with
  | some acct => acct.balance
  | none => 0

/-- The dict literal appended by `add_transaction`. -/
def mkTx (env : Env) (tx_type : String) (amount : Int) (description : String)
    (balance_after : Int) (payment_id : Option String) : Transaction :=
  { id := "tx_" ++ toString env.nowMs
    tx_type := tx_type
    amount := amount
    description := description
    balance_after := balance_after
    payment_id := payment_id
    created_at := env.nowIso }

/-- Helper `add_transaction`: load the transactions dict, default the uid's
list to `[]`, append one entry, save. -/
def add_transaction (st : LedgerState) (env : Env) (uid : String)
    (tx_type : String) (amount : Int) (description : String)
    (balance_after : Int) (payment_id : Option String) : LedgerState :=
  let txs := (lookupA st.transactions uid).getD []
  { st with
    transactions :=
      insertA st.transactions uid
        (txs ++ [mkTx env tx_type amount description balance_after payment_id]) }

/-- Response dict of `POST /init` (`success`, `message`, `balance`). -/
structure InitResponse where
  success : Bool
  message : String
  balance : Int
deriving Repr, DecidableEq

/-- Handler `init_user_credits`: idempotent creation of a uid's account
with `FREE_CREDITS_PER_USER`, logging one `"free"` transaction. -/
def init_user_credits (st : LedgerState) (env : Env) (uid : String) :
    InitResponse × LedgerState :=
  match lookupA st.credits uid with
  | some acct =>
      ({ success := true, message := "User already initialized",
         balance := acct.balance }, st)
  | none =>
      let acct : Account :=
        { balance := FREE_CREDITS_PER_USER, total_purchased := 0,
          total_used := 0, created_at := env.nowIso }
      let st1 : LedgerState := { st with credits := insertA st.credits uid acct }
      let st2 := add_transaction st1 env uid "free" FREE_CREDITS_PER_USER
        ("🎉 Launch Special - " ++ toString FREE_CREDITS_PER_USER ++ " free credits!")
        FREE_CREDITS_PER_USER none
      ({ success := true,
         message := "Welcome! You got " ++ toString FREE_CREDITS_PER_USER ++ " free credits!",
         balance := FREE_CREDITS_PER_USER }, st2)

/-- Response dict of `GET /balance/{uid}`. -/
structure BalanceResponse where
  success : Bool
  uid : String
  balance : Int
  free_mode : Bool
deriving Repr, DecidableEq

/-- Handler `get_user_balance`: reads the stored balance; when
`FREE_LAUNCH_MODE and balance == 0`, calls `init_user_credits` and reports
`FREE_CREDITS_PER_USER`. -/
def get_user_balance (free_mode : Bool) (st : LedgerState) (env : Env)
    (uid : String) : BalanceResponse × LedgerState :=
  let balance := get_balance st.credits uid
  if free_mode ∧ balance = 0 then
    let st1 := (init_user_credits st env uid).2
    ({ success := true, uid := uid, balance := FREE_CREDITS_PER_USER,
       free_mode := free_mode }, st1)
  else
    ({ success := true, uid := uid, balance := balance,
       free_mode := free_mode }, st)

/-- Detail string of the 402 raised by `use_credits`. -/
def insufficientDetail (have_ : Int) (need : Int) : String :=
  "Insufficient credits. Have " ++ toString have_ ++ ", need " ++ toString need ++ "."

/-- Outcome of `POST /use`: the success dict (the paid branch returns no
`free_mode` key, so that field is an `Option`), or an `HTTPException`
carrying status code and detail. -/
inductive UseResult where
  | ok (credits_used : Int) (new_balance : Int) (message : String)
      (free_mode : Option Bool)
  | err (status_code : Nat) (detail : String)
deriving Repr, DecidableEq

/-- Handler `use_credits`: auto-inits a missing uid, then either logs usage
without deducting (free mode) or checks the balance, deducts and logs
(paid mode).  The `err 500` branch models the `KeyError` the Python would
raise were the uid still missing after auto-init (unreachable). -/
def use_credits (free_mode : Bool) (st : LedgerState) (env : Env)
    (uid : String) (amount : Int) (description : String) :
    UseResult × LedgerState :=
  let st' :=
    match lookupA st.credits uid with
    | none => (init_user_credits st env uid).2
    | some _ => st
  match lookupA st'.credits uid with
  | none => (UseResult.err 500 "Internal Server Error", st')
  | some acct =>
    let current_balance := acct.balance
    if free_mode then
      let st2 := add_transaction st' env uid "usage" (-amount)
        (description ++ " (FREE during beta)") current_balance none
      (UseResult.ok amount current_balance
        "✨ Image generated! (Free during beta - credits not deducted)"
        (some true), st2)
    else
      if current_balance < amount then
        (UseResult.err 402 (insufficientDetail current_balance amount), st')
      else
        let new_balance := current_balance - amount
        let acct' : Account :=
          { acct with balance := new_balance,
                      total_used := acct.total_used + amount }
        let st2 : LedgerState := { st' with credits := insertA st'.credits uid acct' }
        let st3 := add_transaction st2 env uid "usage" (-amount) description
          new_balance none
        (UseResult.ok amount new_balance
          (toString amount ++ " credit(s) used. Balance: " ++ toString new_balance)
          none, st3)

/-- All stored balances are non-negative. -/
def nonneg (st : LedgerState) : Prop := ∀ p ∈ st.credits, 0 ≤ p.2.balance

instance (st : LedgerState) : Decidable (nonneg st) := by
  unfold nonneg; infer_instance

/-- Run a sequence of paid-mode `use_credits` calls for one uid. -/
def run_paid_debits (env : Env) (uid d : String) :
    LedgerState → List Int → LedgerState
  | st, [] => st
  | st, a :: rest =>
      run_paid_debits env uid d (use_credits false st env uid a d).2 rest

/-- Every debit of the sequence is within the running balance. -/
def allAccepted : Int → List Int → Prop
  | _, [] => True
  | b, a :: rest => a ≤ b ∧ allAccepted (b - a) rest

def allAcceptedDec : ∀ (b : Int) (l : List Int), Decidable (allAccepted b l)
  | _, [] => .isTrue trivial
  | b, a :: rest =>
      have : Decidable (allAccepted (b - a) rest) := allAcceptedDec (b - a) rest
      by unfold allAccepted; infer_instance

instance (b : Int) (l : List Int) : Decidable (allAccepted b l) := allAcceptedDec b l

/-- The usage transactions a run of accepted paid debits appends: starting
balance `b`, each entry carries `amount = -a` and
`balance_after = previous balance_after - a`. -/
def mkUsageTxs (env : Env) (d : String) : Int → List Int → List Transaction
  | _, [] => []
  | b, a :: rest => mkTx env "usage" (-a) d (b - a) none :: mkUsageTxs env d (b - a) rest

/-- The account record `init_user_credits` creates. -/
def freshAccount (env : Env) : Account :=
  { balance := FREE_CREDITS_PER_USER, total_purchased := 0, total_used := 0,
    created_at := env.nowIso }

/-- The grant transaction `init_user_credits` logs (the source tags it
`tx_type="free"`). -/
def grantTx (env : Env) : Transaction :=
  mkTx env "free" FREE_CREDITS_PER_USER
    ("🎉 Launch Special - " ++ toString FREE_CREDITS_PER_USER ++ " free credits!")
    FREE_CREDITS_PER_USER none

/-- A concrete clock. -/
def env0 : Env := { nowIso := "2026-01-01T00:00:00", nowMs := 1767225600000 }

/-- A later concrete clock. -/
def env1 : Env := { nowIso := "2026-01-01T00:00:05", nowMs := 1767225605000 }

/-- The empty persistent state (fresh `data/` files). -/
def st0 : LedgerState := { credits := [], transactions := [] }

/-- A concrete account with balance 5. -/
def acct5 : Account :=
  { balance := 5, total_purchased := 0, total_used := 2, created_at := "t0" }

/-- A state holding only `"u1"` with balance 5. -/
def st5 : LedgerState := { credits := [("u1", acct5)], transactions := [] }

/-- A concrete account with balance 0. -/
def acctz : Account :=
  { balance := 0, total_purchased := 0, total_used := 7, created_at := "t0" }

/-- A state holding only `"u1"` with balance 0. -/
def stz : LedgerState := { credits := [("u1", acctz)], transactions := [] }

/- ───────────────────── helper lemmas ───────────────────── -/

theorem lookupA_insertA_self {α : Type} (l : List (String × α)) (k : String) (v : α) :
    lookupA (insertA l k v) k = some v := by
  induction l with
  | nil => simp [insertA, lookupA]
  | cons p rest ih =>
      obtain ⟨a, b⟩ := p
      by_cases h : a = k
      · simp [insertA, h, lookupA]
      · simp [insertA, h, lookupA, ih]

theorem lookupA_insertA_ne {α : Type} (l : List (String × α)) (k k' : String)
    (v : α) (h : k' ≠ k) : lookupA (insertA l k v) k' = lookupA l k' := by
  induction l with
  | nil =>
      simp only [insertA, lookupA]
      rw [if_neg (Ne.symm h)]
  | cons p rest ih =>
      obtain ⟨a, b⟩ := p
      by_cases hp : a = k
      · subst hp
        simp only [insertA, if_pos rfl, lookupA]
        rw [if_neg (Ne.symm h), if_neg (Ne.symm h)]
      · simp only [insertA, if_neg hp, lookupA]
        by_cases hp' : a = k'
        · simp [hp']
        · simp [hp', ih]

theorem mem_insertA {α : Type} (l : List (String × α)) (k : String) (v : α)
    (p : String × α) : p ∈ insertA l k v → p = (k, v) ∨ p ∈ l := by
  induction l with
  | nil => intro h; simpa [insertA] using h
  | cons q rest ih =>
      intro h
      obtain ⟨a, b⟩ := q
      by_cases hq : a = k
      · simp only [insertA, if_pos hq, List.mem_cons] at h
        exact h.imp id (List.mem_cons_of_mem _)
      · simp only [insertA, if_neg hq, List.mem_cons] at h
        rcases h with h | h
        · exact Or.inr (h ▸ List.mem_cons_self _ _)
        · rcases ih h with h' | h'
          · exact Or.inl h'
          · exact Or.inr (List.mem_cons_of_mem _ h')

theorem lookupA_mem {α : Type} (l : List (String × α)) (k : String) (v : α) :
    lookupA l k = some v → (k, v) ∈ l := by
  induction l with
  | nil => intro h; simp [lookupA] at h
  | cons p rest ih =>
      intro h
      obtain ⟨a, b⟩ := p
      by_cases hp : a = k
      · subst hp
        simp [lookupA] at h
        subst h
        exact List.mem_cons_self _ _
      · simp only [lookupA, if_neg hp] at h
        exact List.mem_cons_of_mem _ (ih h)

theorem Account_ext (a1 a2 : Account) (hb : a1.balance = a2.balance)
    (hp : a1.total_purchased = a2.total_purchased)
    (hu : a1.total_used = a2.total_used)
    (hc : a1.created_at = a2.created_at) : a1 = a2 := by
  cases a1
  cases a2
  simp_all

theorem init_user_credits_existing (st : LedgerState) (env : Env) (uid : String)
    (acct : Account) (h : lookupA st.credits uid = some acct) :
    init_user_credits st env uid =
      ({ success := true, message := "User already initialized",
         balance := acct.balance }, st) := by
  simp [init_user_credits, h]

theorem init_user_credits_fresh (st : LedgerState) (env : Env) (uid : String)
    (h : lookupA st.credits uid = none) :
    init_user_credits st env uid =
      ({ success := true,
         message := "Welcome! You got " ++ toString FREE_CREDITS_PER_USER ++ " free credits!",
         balance := FREE_CREDITS_PER_USER },
       { credits := insertA st.credits uid (freshAccount env),
         transactions := insertA st.transactions uid
           ((lookupA st.transactions uid).getD [] ++ [grantTx env]) }) := by
  simp [init_user_credits, h, add_transaction, freshAccount, grantTx]

theorem use_credits_free_existing (st : LedgerState) (env : Env) (uid d : String)
    (amount : Int) (acct : Account) (h : lookupA st.credits uid = some acct) :
    use_credits true st env uid amount d =
      (UseResult.ok amount acct.balance
        "✨ Image generated! (Free during beta - credits not deducted)" (some true),
       { st with
           transactions :=
             insertA st.transactions uid
               ((lookupA st.transactions uid).getD [] ++
                 [mkTx env "usage" (-amount) (d ++ " (FREE during beta)")
                   acct.balance none]) }) := by
  simp [use_credits, h, add_transaction]

theorem use_credits_paid_insufficient (st : LedgerState) (env : Env) (uid d : String)
    (amount : Int) (acct : Account) (h : lookupA st.credits uid = some acct)
    (hlt : acct.balance < amount) :
    use_credits false st env uid amount d =
      (UseResult.err 402 (insufficientDetail acct.balance amount), st) := by
  simp [use_credits, h, hlt]

theorem use_credits_paid_ok (st : LedgerState) (env : Env) (uid d : String)
    (amount : Int) (acct : Account) (h : lookupA st.credits uid = some acct)
    (hge : amount ≤ acct.balance) :
    use_credits false st env uid amount d =
      (UseResult.ok amount (acct.balance - amount)
        (toString amount ++ " credit(s) used. Balance: " ++ toString (acct.balance - amount))
        none,
       { credits := insertA st.credits uid
           { acct with balance := acct.balance - amount,
                       total_used := acct.total_used + amount },
         transactions := insertA st.transactions uid
           ((lookupA st.transactions uid).getD [] ++
             [mkTx env "usage" (-amount) d (acct.balance - amount) none]) }) := by
  have hnlt : ¬ acct.balance < amount := not_lt.mpr hge
  simp [use_credits, h, hnlt, add_transaction]

theorem use_credits_auto_init (fm : Bool) (st : LedgerState) (env : Env)
    (uid d : String) (amount : Int) (h : lookupA st.credits uid = none) :
    use_credits fm st env uid amount d =
      use_credits fm (init_user_credits st env uid).2 env uid amount d := by
  have h2 : lookupA (init_user_credits st env uid).2.credits uid
      = some (freshAccount env) := by
    rw [init_user_credits_fresh st env uid h]
    exact lookupA_insertA_self _ _ _
  simp only [use_credits, h, h2]

theorem get_user_balance_paid (st : LedgerState) (env : Env) (uid : String) :
    get_user_balance false st env uid =
      ({ success := true, uid := uid, balance := get_balance st.credits uid,
         free_mode := false }, st) := by
  simp [get_user_balance]

theorem nonneg_insertA_credits (l : List (String × Account)) (uid : String)
    (a : Account) (h : ∀ p ∈ l, 0 ≤ p.2.balance) (ha : 0 ≤ a.balance) :
    ∀ p ∈ insertA l uid a, 0 ≤ p.2.balance := by
  intro p hp
  rcases mem_insertA l uid a p hp with rfl | h'
  · exact ha
  · exact h p h'

theorem nonneg_init (st : LedgerState) (env : Env) (uid : String)
    (h : nonneg st) : nonneg (init_user_credits st env uid).2 := by
  cases hl : lookupA st.credits uid with
  | some acct =>
      rw [init_user_credits_existing st env uid acct hl]
      exact h
  | none =>
      rw [init_user_credits_fresh st env uid hl]
      intro p hp
      rcases mem_insertA _ _ _ p hp with rfl | hm
      · norm_num [freshAccount, FREE_CREDITS_PER_USER]
      · exact h p hm

theorem nonneg_use_paid_existing (st : LedgerState) (env : Env) (uid d : String)
    (amount : Int) (acct : Account) (hl : lookupA st.credits uid = some acct)
    (h : nonneg st) : nonneg (use_credits false st env uid amount d).2 := by
  by_cases hlt : acct.balance < amount
  · rw [use_credits_paid_insufficient st env uid d amount acct hl hlt]
    exact h
  · rw [use_credits_paid_ok st env uid d amount acct hl (not_lt.mp hlt)]
    intro p hp
    rcases mem_insertA _ _ _ p hp with rfl | hm
    · show 0 ≤ acct.balance - amount
      have hge := not_lt.mp hlt
      omega
    · exact h p hm

theorem nonneg_use_paid (st : LedgerState) (env : Env) (uid d : String)
    (amount : Int) (h : nonneg st) :
    nonneg (use_credits false st env uid amount d).2 := by
  cases hl : lookupA st.credits uid with
  | some acct => exact nonneg_use_paid_existing st env uid d amount acct hl h
  | none =>
      rw [use_credits_auto_init false st env uid d amount hl]
      have h1 : lookupA (init_user_credits st env uid).2.credits uid
          = some (freshAccount env) := by
        rw [init_user_credits_fresh st env uid hl]
        exact lookupA_insertA_self _ _ _
      exact nonneg_use_paid_existing _ env uid d amount (freshAccount env) h1
        (nonneg_init st env uid h)

theorem mkUsageTxs_chain (env : Env) (d : String) (l : List Int) :
    ∀ b : Int,
      List.Chain' (fun t1 t2 => t2.balance_after = t1.balance_after + t2.amount)
        (mkUsageTxs env d b l) := by
  induction l with
  | nil => intro b; simp [mkUsageTxs]
  | cons a rest ih =>
      intro b
      rw [show mkUsageTxs env d b (a :: rest)
            = mkTx env "usage" (-a) d (b - a) none :: mkUsageTxs env d (b - a) rest
          from rfl]
      rw [List.chain'_cons']
      refine ⟨?_, ih (b - a)⟩
      intro y hy
      cases rest with
      | nil => simp [mkUsageTxs] at hy
      | cons a2 r2 =>
          simp only [mkUsageTxs, List.head?_cons, Option.mem_def,
            Option.some.injEq] at hy
          subst hy
          simp only [mkTx]
          ring

theorem mkUsageTxs_map_amount (env : Env) (d : String) (l : List Int) :
    ∀ b : Int, (mkUsageTxs env d b l).map Transaction.amount
      = l.map (fun a => -a) := by
  induction l with
  | nil => intro b; simp [mkUsageTxs]
  | cons a rest ih =>
      intro b
      simp only [mkUsageTxs, List.map_cons, mkTx, ih (b - a), List.map]

theorem run_paid_debits_spec (env : Env) (uid d : String) (amounts : List Int) :
    ∀ (st : LedgerState) (acct : Account),
      lookupA st.credits uid = some acct →
      allAccepted acct.balance amounts →
      lookupA (run_paid_debits env uid d st amounts).credits uid
          = some { acct with balance := acct.balance - amounts.sum,
                             total_used := acct.total_used + amounts.sum } ∧
      (lookupA (run_paid_debits env uid d st amounts).transactions uid).getD []
          = (lookupA st.transactions uid).getD []
              ++ mkUsageTxs env d acct.balance amounts := by
  induction amounts with
  | nil =>
      intro st acct h _
      refine ⟨?_, by simp [run_paid_debits, mkUsageTxs]⟩
      simp only [run_paid_debits, List.sum_nil, sub_zero, add_zero]
      exact h
  | cons a rest ih =>
      intro st acct h hacc
      obtain ⟨ha, hrest⟩ := hacc
      have hstep := use_credits_paid_ok st env uid d a acct h ha
      have h1 : lookupA (use_credits false st env uid a d).2.credits uid
          = some { acct with balance := acct.balance - a,
                             total_used := acct.total_used + a } := by
        rw [hstep]
        exact lookupA_insertA_self _ _ _
      have ht1 : (lookupA (use_credits false st env uid a d).2.transactions uid).getD []
          = (lookupA st.transactions uid).getD []
              ++ [mkTx env "usage" (-a) d (acct.balance - a) none] := by
        rw [hstep]
        rw [lookupA_insertA_self]
        rfl
      have hih := ih (use_credits false st env uid a d).2 _ h1 hrest
      rw [show run_paid_debits env uid d st (a :: rest)
            = run_paid_debits env uid d (use_credits false st env uid a d).2 rest
          from rfl]
      refine ⟨?_, ?_⟩
      · rw [hih.1]
        refine congrArg some (Account_ext _ _ ?_ rfl ?_ rfl)
        · show acct.balance - a - rest.sum = acct.balance - (a :: rest).sum
          simp only [List.sum_cons]
          ring
        · show acct.total_used + a + rest.sum = acct.total_used + (a :: rest).sum
          simp only [List.sum_cons]
          ring
      · rw [hih.2, ht1, List.append_assoc]
        rfl

/-- C2: with the account present, a paid-mode `use_credits` raises the 402
`HTTPException` exactly when `current_balance < amount`; on that failure the
state (accounts and transaction log) is returned unchanged, and the detail
string reports both the current balance and the requested amount. -/
theorem C2_paid_insufficient_iff (st : LedgerState) (env : Env) (uid d : String)
    (amount : Int) (acct : Account) (h : lookupA st.credits uid = some acct) :
    acct.balance < amount ↔
      use_credits false st env uid amount d
        = (UseResult.err 402 (insufficientDetail acct.balance amount), st) := by
  constructor
  · intro hlt
    exact use_credits_paid_insufficient st env uid d amount acct h hlt
  · intro he
    by_cases hlt : acct.balance < amount
    · exact hlt
    · rw [use_credits_paid_ok st env uid d amount acct h (not_lt.mp hlt)] at he
      simp at he

/-- Witness for C2 at a concrete state: `"u1"` holds balance 5 and a debit
of 9 fails with the 402 and its detail string. -/
theorem C2_witness :
    lookupA st5.credits "u1" = some acct5 ∧
    (acct5.balance < 9 ↔
      use_credits false st5 env0 "u1" 9 "panel generated"
        = (UseResult.err 402 (insufficientDetail acct5.balance 9), st5)) :=
  ⟨by decide,
   C2_paid_insufficient_iff st5 env0 "u1" "panel generated" 9 acct5 (by decide)⟩

/-- C4: in free mode a debit for an existing account succeeds for every
amount, the account store is unchanged (so the stored balance is too), one
`usage` transaction is appended carrying `amount = -amount` and
`balance_after = current_balance`, and the response reports the unchanged
balance as `new_balance`. -/
theorem C4_free_mode_invariance (st : LedgerState) (env : Env) (uid d : String)
    (amount : Int) (acct : Account) (h : lookupA st.credits uid = some acct) :
    use_credits true st env uid amount d =
      (UseResult.ok amount acct.balance
        "✨ Image generated! (Free during beta - credits not deducted)" (some true),
       { st with
           transactions :=
             insertA st.transactions uid
               ((lookupA st.transactions uid).getD [] ++
                 [mkTx env "usage" (-amount) (d ++ " (FREE during beta)")
                   acct.balance none]) }) :=
  use_credits_free_existing st env uid d amount acct h

/-- Witness for C4: a free-mode debit of 3 against `"u1"` (balance 5). -/
theorem C4_witness :
    lookupA st5.credits "u1" = some acct5 ∧
    use_credits true st5 env0 "u1" 3 "AI image generated" =
      (UseResult.ok 3 acct5.balance
        "✨ Image generated! (Free during beta - credits not deducted)" (some true),
       { st5 with
           transactions :=
             insertA st5.transactions "u1"
               ((lookupA st5.transactions "u1").getD [] ++
                 [mkTx env0 "usage" (-3) ("AI image generated" ++ " (FREE during beta)")
                   acct5.balance none]) }) :=
  ⟨by decide,
   C4_free_mode_invariance st5 env0 "u1" "AI image generated" 3 acct5 (by decide)⟩

/-- C10: a free-mode debit for an existing account never writes the account
store (all account fields of every user unchanged); the only state change
is the single appended usage transaction. -/
theorem C10_free_mode_account_frame (st : LedgerState) (env : Env)
    (uid d : String) (amount : Int) (acct : Account)
    (h : lookupA st.credits uid = some acct) :
    (use_credits true st env uid amount d).2.credits = st.credits ∧
    (use_credits true st env uid amount d).2.transactions =
      insertA st.transactions uid
        ((lookupA st.transactions uid).getD [] ++
          [mkTx env "usage" (-amount) (d ++ " (FREE during beta)")
            acct.balance none]) := by
  rw [use_credits_free_existing st env uid d amount acct h]
  exact ⟨rfl, rfl⟩

/-- Witness for C10: a free-mode debit of 2 against `"u1"` (balance 5). -/
theorem C10_witness :
    lookupA st5.credits "u1" = some acct5 ∧
    ((use_credits true st5 env0 "u1" 2 "img").2.credits = st5.credits ∧
     (use_credits true st5 env0 "u1" 2 "img").2.transactions =
       insertA st5.transactions "u1"
         ((lookupA st5.transactions "u1").getD [] ++
           [mkTx env0 "usage" (-2) ("img" ++ " (FREE during beta)")
             acct5.balance none])) :=
  ⟨by decide, C10_free_mode_account_frame st5 env0 "u1" "img" 2 acct5 (by decide)⟩

/-- C8: `init_user_credits` is idempotent.  If the account exists it
returns the stored balance with the "User already initialized" message and
an unchanged state; on a fresh uid, two inits yield the same balance
(`FREE_CREDITS_PER_USER`) both times, the second reports already
initialized and changes nothing, and the uid's log holds exactly one grant
transaction in total. -/
theorem C8_init_idempotent (st : LedgerState) (env env' : Env) (uid : String) :
    (∀ acct, lookupA st.credits uid = some acct →
        init_user_credits st env uid =
          ({ success := true, message := "User already initialized",
             balance := acct.balance }, st)) ∧
    (lookupA st.credits uid = none →
        ((init_user_credits st env uid).1.balance = FREE_CREDITS_PER_USER ∧
         (init_user_credits (init_user_credits st env uid).2 env' uid).1.balance
           = FREE_CREDITS_PER_USER ∧
         (init_user_credits (init_user_credits st env uid).2 env' uid).1.message
           = "User already initialized" ∧
         (init_user_credits (init_user_credits st env uid).2 env' uid).2
           = (init_user_credits st env uid).2 ∧
         lookupA
           (init_user_credits (init_user_credits st env uid).2 env' uid).2.transactions
           uid
           = some ((lookupA st.transactions uid).getD [] ++ [grantTx env]))) := by
  refine ⟨fun acct h => init_user_credits_existing st env uid acct h, fun h => ?_⟩
  have hfresh := init_user_credits_fresh st env uid h
  have h2 : lookupA (init_user_credits st env uid).2.credits uid
      = some (freshAccount env) := by
    rw [hfresh]
    exact lookupA_insertA_self _ _ _
  have hsecond := init_user_credits_existing _ env' uid _ h2
  refine ⟨by rw [hfresh], by rw [hsecond]; rfl, by rw [hsecond], by rw [hsecond], ?_⟩
  rw [hsecond, hfresh]
  exact lookupA_insertA_self _ _ _

/-- Witness for C8: two inits of the fresh uid `"u2"` on the empty state. -/
theorem C8_witness :
    lookupA st0.credits "u2" = none ∧
    ((init_user_credits st0 env0 "u2").1.balance = FREE_CREDITS_PER_USER ∧
     (init_user_credits (init_user_credits st0 env0 "u2").2 env1 "u2").1.balance
       = FREE_CREDITS_PER_USER ∧
     (init_user_credits (init_user_credits st0 env0 "u2").2 env1 "u2").1.message
       = "User already initialized" ∧
     (init_user_credits (init_user_credits st0 env0 "u2").2 env1 "u2").2
       = (init_user_credits st0 env0 "u2").2 ∧
     lookupA
       (init_user_credits (init_user_credits st0 env0 "u2").2 env1 "u2").2.transactions
       "u2"
       = some ((lookupA st0.transactions "u2").getD [] ++ [grantTx env0])) :=
  ⟨by decide, (C8_init_idempotent st0 env0 env1 "u2").2 (by decide)⟩

/-- Counterexample to C5: in paid mode a balance read for an unknown uid
creates no account, appends nothing, and returns 0, not the initial
grant. -/
theorem C5_counterexample :
    (get_user_balance false st0 env0 "u1").1.balance = 0 ∧
    (get_user_balance false st0 env0 "u1").1.balance ≠ FREE_CREDITS_PER_USER ∧
    (get_user_balance false st0 env0 "u1").2 = st0 ∧
    lookupA (get_user_balance false st0 env0 "u1").2.credits "u1" = none := by
  decide

/-- C5 (amended): the implicit creation on a balance read happens only in
free mode.  For a uid with no account, free mode creates the account with
balance `FREE_CREDITS_PER_USER`, appends one grant transaction (source
type string `"free"`) with `amount = FREE_CREDITS_PER_USER` and
`balance_after = FREE_CREDITS_PER_USER`, and returns that grant; paid mode
returns 0 and changes nothing. -/
theorem C5_auto_init_only_free_mode (st : LedgerState) (env : Env)
    (uid : String) (h : lookupA st.credits uid = none) :
    get_user_balance false st env uid =
      ({ success := true, uid := uid, balance := 0, free_mode := false }, st) ∧
    get_user_balance true st env uid =
      ({ success := true, uid := uid, balance := FREE_CREDITS_PER_USER,
         free_mode := true },
       { credits := insertA st.credits uid (freshAccount env),
         transactions := insertA st.transactions uid
           ((lookupA st.transactions uid).getD [] ++ [grantTx env]) }) := by
  have hb : get_balance st.credits uid = 0 := by simp [get_balance, h]
  constructor
  · simp [get_user_balance, hb]
  · simp [get_user_balance, hb, init_user_credits_fresh st env uid h]

/-- Witness for the amended C5 at the empty state and uid `"u1"`. -/
theorem C5_witness :
    lookupA st0.credits "u1" = none ∧
    (get_user_balance false st0 env0 "u1" =
       ({ success := true, uid := "u1", balance := 0, free_mode := false }, st0) ∧
     get_user_balance true st0 env0 "u1" =
       ({ success := true, uid := "u1", balance := FREE_CREDITS_PER_USER,
          free_mode := true },
        { credits := insertA st0.credits "u1" (freshAccount env0),
          transactions := insertA st0.transactions "u1"
            ((lookupA st0.transactions "u1").getD [] ++ [grantTx env0]) })) :=
  ⟨by decide, C5_auto_init_only_free_mode st0 env0 "u1" (by decide)⟩

/-- Counterexample to C6: `"u1"` exists with stored balance 0, yet the
free-mode balance read reports `FREE_CREDITS_PER_USER`, not the stored
balance. -/
theorem C6_counterexample :
    lookupA stz.credits "u1" = some acctz ∧
    acctz.balance = 0 ∧
    (get_user_balance true stz env0 "u1").1.balance = FREE_CREDITS_PER_USER ∧
    (get_user_balance true stz env0 "u1").1.balance ≠ acctz.balance := by
  decide

/-- C6 (amended): a balance read for an existing account changes no state;
it returns the stored balance except that, in free mode with stored
balance 0, it reports `FREE_CREDITS_PER_USER` while the store still holds
0. -/
theorem C6_balance_read_frame (fm : Bool) (st : LedgerState) (env : Env)
    (uid : String) (acct : Account) (h : lookupA st.credits uid = some acct) :
    (get_user_balance fm st env uid).2 = st ∧
    (get_user_balance fm st env uid).1.balance =
      (if fm ∧ acct.balance = 0 then FREE_CREDITS_PER_USER else acct.balance) := by
  have hb : get_balance st.credits uid = acct.balance := by simp [get_balance, h]
  have hst : (init_user_credits st env uid).2 = st := by
    rw [init_user_credits_existing st env uid acct h]
  by_cases hc : fm ∧ acct.balance = 0
  · simp [get_user_balance, hb, hc, hst]
  · simp [get_user_balance, hb, hc]

/-- Witness for the amended C6 at the balance-0 account. -/
theorem C6_witness :
    lookupA stz.credits "u1" = some acctz ∧
    ((get_user_balance true stz env0 "u1").2 = stz ∧
     (get_user_balance true stz env0 "u1").1.balance =
       (if true ∧ acctz.balance = 0 then FREE_CREDITS_PER_USER
        else acctz.balance)) :=
  ⟨by decide, C6_balance_read_frame true stz env0 "u1" acctz (by decide)⟩

/-- Counterexample to C7: a paid-mode debit of -3 against balance 5 is not
rejected: it succeeds, raises the balance to 8 and drives `total_used`
negative. -/
theorem C7_counterexample :
    (use_credits false st5 env0 "u1" (-3) "img").1
      = UseResult.ok (-3) 8 "-3 credit(s) used. Balance: 8" none ∧
    lookupA (use_credits false st5 env0 "u1" (-3) "img").2.credits "u1"
      = some { balance := 8, total_purchased := 0, total_used := -1,
               created_at := "t0" } := by
  decide

/-- C7 (amended): `use_credits` performs no positivity check on the amount.
A debit with `amount ≤ 0` against an existing account with non-negative
balance is accepted in both modes; in paid mode it sets
`new_balance = balance - amount ≥ balance` (a non-positive "debit" can only
raise the balance) and adds `amount` to `total_used`; in free mode it
succeeds with the balance unchanged.  No `InvalidAmount` rejection exists
in the code. -/
theorem C7_nonpositive_amount_accepted (st : LedgerState) (env : Env)
    (uid d : String) (amount : Int) (acct : Account)
    (h : lookupA st.credits uid = some acct) (hamt : amount ≤ 0)
    (hbal : 0 ≤ acct.balance) :
    (use_credits false st env uid amount d).1 =
      UseResult.ok amount (acct.balance - amount)
        (toString amount ++ " credit(s) used. Balance: "
          ++ toString (acct.balance - amount)) none ∧
    acct.balance ≤ acct.balance - amount ∧
    lookupA (use_credits false st env uid amount d).2.credits uid
      = some { acct with balance := acct.balance - amount,
                         total_used := acct.total_used + amount } ∧
    (use_credits true st env uid amount d).1 =
      UseResult.ok amount acct.balance
        "✨ Image generated! (Free during beta - credits not deducted)"
        (some true) := by
  have hge : amount ≤ acct.balance := le_trans hamt hbal
  have hpaid := use_credits_paid_ok st env uid d amount acct h hge
  refine ⟨by rw [hpaid], by omega, ?_,
    by rw [use_credits_free_existing st env uid d amount acct h]⟩
  rw [hpaid]
  exact lookupA_insertA_self _ _ _

/-- Witness for the amended C7 at amount -3 against balance 5. -/
theorem C7_witness :
    lookupA st5.credits "u1" = some acct5 ∧ (-3 : Int) ≤ 0 ∧ 0 ≤ acct5.balance ∧
    ((use_credits false st5 env0 "u1" (-3) "img").1 =
       UseResult.ok (-3) (acct5.balance - (-3))
         (toString (-3 : Int) ++ " credit(s) used. Balance: "
           ++ toString (acct5.balance - (-3))) none ∧
     acct5.balance ≤ acct5.balance - (-3) ∧
     lookupA (use_credits false st5 env0 "u1" (-3) "img").2.credits "u1"
       = some { acct5 with balance := acct5.balance - (-3),
                           total_used := acct5.total_used + (-3) } ∧
     (use_credits true st5 env0 "u1" (-3) "img").1 =
       UseResult.ok (-3) acct5.balance
         "✨ Image generated! (Free during beta - credits not deducted)"
         (some true)) :=
  ⟨by decide, by decide, by decide,
   C7_nonpositive_amount_accepted st5 env0 "u1" "img" (-3) acct5
     (by decide) (by decide) (by decide)⟩

/-- C1: starting from a state whose stored balances are all non-negative,
every paid-mode operation (`init_user_credits`, `get_user_balance`,
`use_credits`) leaves every stored balance non-negative; in particular a
paid-mode debit on an existing account, for any integer amount, either
fails with the 402 (state unchanged) or returns
`new_balance = balance - amount ≥ 0`. -/
theorem C1_paid_mode_no_negative_balance (st : LedgerState) (env : Env)
    (uid d : String) (amount : Int) (h : nonneg st) :
    nonneg (init_user_credits st env uid).2 ∧
    nonneg (get_user_balance false st env uid).2 ∧
    nonneg (use_credits false st env uid amount d).2 ∧
    (∀ acct, lookupA st.credits uid = some acct →
       use_credits false st env uid amount d
           = (UseResult.err 402 (insufficientDetail acct.balance amount), st) ∨
       ((use_credits false st env uid amount d).1
           = UseResult.ok amount (acct.balance - amount)
               (toString amount ++ " credit(s) used. Balance: "
                 ++ toString (acct.balance - amount)) none ∧
        0 ≤ acct.balance - amount)) := by
  refine ⟨nonneg_init st env uid h, ?_, nonneg_use_paid st env uid d amount h, ?_⟩
  · rw [get_user_balance_paid]
    exact h
  · intro acct hl
    by_cases hlt : acct.balance < amount
    · exact Or.inl (use_credits_paid_insufficient st env uid d amount acct hl hlt)
    · refine Or.inr ⟨by rw [use_credits_paid_ok st env uid d amount acct hl (not_lt.mp hlt)], ?_⟩
      have hb := h _ (lookupA_mem _ _ _ hl)
      have hge := not_lt.mp hlt
      omega

/-- Witness for C1 at the balance-5 state with a paid debit of 4. -/
theorem C1_witness :
    nonneg st5 ∧
    (nonneg (init_user_credits st5 env0 "u1").2 ∧
     nonneg (get_user_balance false st5 env0 "u1").2 ∧
     nonneg (use_credits false st5 env0 "u1" 4 "img").2 ∧
     (use_credits false st5 env0 "u1" 4 "img"
         = (UseResult.err 402 (insufficientDetail acct5.balance 4), st5) ∨
      ((use_credits false st5 env0 "u1" 4 "img").1
          = UseResult.ok 4 (acct5.balance - 4)
              (toString (4 : Int) ++ " credit(s) used. Balance: "
                ++ toString (acct5.balance - 4)) none ∧
       0 ≤ acct5.balance - 4))) :=
  ⟨by decide,
   (C1_paid_mode_no_negative_balance st5 env0 "u1" "img" 4 (by decide)).1,
   (C1_paid_mode_no_negative_balance st5 env0 "u1" "img" 4 (by decide)).2.1,
   (C1_paid_mode_no_negative_balance st5 env0 "u1" "img" 4 (by decide)).2.2.1,
   (C1_paid_mode_no_negative_balance st5 env0 "u1" "img" 4 (by decide)).2.2.2
     acct5 (by decide)⟩

/-- C3: a paid-mode debit with `amount ≤ balance` succeeds, decreases the
stored balance by `amount`, increases `total_used` by `amount` and appends
exactly one usage transaction with `amount = -amount` and
`balance_after = new_balance`; over any sequence of accepted paid-mode
debits, the stored balance falls by the running sum and the appended usage
transactions chain as `balance_after_i = balance_after_(i-1) - amount_i`
(each entry's `balance_after` equals its predecessor's plus its own
negative `amount`). -/
theorem C3_paid_debit_conservation (st : LedgerState) (env : Env)
    (uid d : String) (amount : Int) (acct : Account)
    (h : lookupA st.credits uid = some acct) :
    (amount ≤ acct.balance →
       use_credits false st env uid amount d =
         (UseResult.ok amount (acct.balance - amount)
           (toString amount ++ " credit(s) used. Balance: "
             ++ toString (acct.balance - amount)) none,
          { credits := insertA st.credits uid
              { acct with balance := acct.balance - amount,
                          total_used := acct.total_used + amount },
            transactions := insertA st.transactions uid
              ((lookupA st.transactions uid).getD [] ++
                [mkTx env "usage" (-amount) d (acct.balance - amount) none]) })) ∧
    (∀ amounts : List Int, allAccepted acct.balance amounts →
       lookupA (run_paid_debits env uid d st amounts).credits uid
           = some { acct with balance := acct.balance - amounts.sum,
                              total_used := acct.total_used + amounts.sum } ∧
       (lookupA (run_paid_debits env uid d st amounts).transactions uid).getD []
           = (lookupA st.transactions uid).getD []
               ++ mkUsageTxs env d acct.balance amounts ∧
       (mkUsageTxs env d acct.balance amounts).map Transaction.amount
           = amounts.map (fun a => -a) ∧
       List.Chain' (fun t1 t2 => t2.balance_after = t1.balance_after + t2.amount)
         (mkUsageTxs env d acct.balance amounts)) := by
  refine ⟨fun hge => use_credits_paid_ok st env uid d amount acct h hge, ?_⟩
  intro amounts hacc
  have hrun := run_paid_debits_spec env uid d amounts st acct h hacc
  exact ⟨hrun.1, hrun.2, mkUsageTxs_map_amount env d amounts acct.balance,
    mkUsageTxs_chain env d amounts acct.balance⟩

/-- Witness for C3: a single accepted debit of 3 and the accepted sequence
`[3, 2]` against balance 5. -/
theorem C3_witness :
    lookupA st5.credits "u1" = some acct5 ∧ (3 : Int) ≤ acct5.balance ∧
    allAccepted acct5.balance [3, 2] ∧
    (use_credits false st5 env0 "u1" 3 "panel generated" =
       (UseResult.ok 3 (acct5.balance - 3)
         (toString (3 : Int) ++ " credit(s) used. Balance: "
           ++ toString (acct5.balance - 3)) none,
        { credits := insertA st5.credits "u1"
            { acct5 with balance := acct5.balance - 3,
                         total_used := acct5.total_used + 3 },
          transactions := insertA st5.transactions "u1"
            ((lookupA st5.transactions "u1").getD [] ++
              [mkTx env0 "usage" (-3) "panel generated"
                (acct5.balance - 3) none]) })) ∧
    (lookupA (run_paid_debits env0 "u1" "panel generated" st5 [3, 2]).credits "u1"
        = some { acct5 with balance := acct5.balance - ([3, 2] : List Int).sum,
                            total_used := acct5.total_used + ([3, 2] : List Int).sum } ∧
     (lookupA (run_paid_debits env0 "u1" "panel generated" st5 [3, 2]).transactions
         "u1").getD []
        = (lookupA st5.transactions "u1").getD []
            ++ mkUsageTxs env0 "panel generated" acct5.balance [3, 2] ∧
     (mkUsageTxs env0 "panel generated" acct5.balance [3, 2]).map Transaction.amount
        = ([3, 2] : List Int).map (fun a => -a) ∧
     List.Chain' (fun t1 t2 => t2.balance_after = t1.balance_after + t2.amount)
       (mkUsageTxs env0 "panel generated" acct5.balance [3, 2])) :=
  ⟨by decide, by decide, by decide,
   (C3_paid_debit_conservation st5 env0 "u1" "panel generated" 3 acct5
      (by decide)).1 (by decide),
   (C3_paid_debit_conservation st5 env0 "u1" "panel generated" 3 acct5
      (by decide)).2 [3, 2] (by decide)⟩

end Credits
